import Mathlib

/-!
Verification of the three-stage documentation pipeline
(`app/agents.py`: `run_pipeline`, `stream_pipeline`) and of the UI layer
(`app.py`: `save_documentation`, `generate`).

The remote language-model call (`Runner.run(agent, prompt)`) is modelled as an
oracle `AgentT → String → Except ε String`: a call either returns a text or
fails, and the pipeline is parametric in that oracle.  A run records, next to
its result, the ordered list of `(agent, prompt)` calls actually issued, so
call-count and call-order properties can be stated.  The filesystem is
modelled as a list of directories plus a list of `(path, contents)` pairs.
-/

/-- Model of Python's `str.strip()`: drop leading and trailing whitespace
characters.  Defined over the character list so that it evaluates by kernel
reduction. -/
def pyStrip (s : String) : String :=
  ⟨((s.data.dropWhile Char.isWhitespace).reverse.dropWhile Char.isWhitespace).reverse⟩

/-- Tags for the three module-level agent objects of `app/agents.py`
(`code_analyst`, `doc_writer`, `quality_reviewer`). -/
inductive AgentT where
  | code_analyst
  | doc_writer
  | quality_reviewer
deriving DecidableEq, Repr

/-- Warning string returned by `run_pipeline` on empty input
(agents.py line 228). -/
def emptyWarningRun : String :=
  "⚠️ No code was provided. Please paste or upload a file."

/-- Warning string yielded by `stream_pipeline` on empty input
(agents.py line 308). -/
def emptyWarningStream : String :=
  "⚠️ No code was provided. Please paste or upload a file."

/-- Stage-1 prompt of `run_pipeline` (agents.py lines 235-237). -/
def analystPromptRun (language code : String) : String :=
  "Analyse this " ++ language ++ " code thoroughly:\n\n" ++ code

/-- Stage-2 prompt of `run_pipeline` (agents.py lines 248-254). -/
def writerPromptRun (language analysis code : String) : String :=
  "Write complete professional documentation using this analysis:\n\n--- ANALYSIS ---\n"
    ++ analysis
    ++ "\n\n--- ORIGINAL " ++ language.toUpper ++ " CODE (for reference) ---\n"
    ++ code

/-- Stage-3 prompt of `run_pipeline` (agents.py lines 263-269). -/
def reviewerPromptRun (language draft_docs code : String) : String :=
  "Review and polish this documentation against the original code.\n\n--- DOCUMENTATION TO REVIEW ---\n"
    ++ draft_docs
    ++ "\n\n--- ORIGINAL " ++ language.toUpper ++ " CODE ---\n"
    ++ code

/-- Stage-1 prompt of `stream_pipeline` (agents.py line 318). -/
def analystPromptStream (language code : String) : String :=
  "Analyse this " ++ language ++ " code thoroughly:\n\n" ++ code

/-- Stage-2 prompt of `stream_pipeline` (agents.py lines 327-333). -/
def writerPromptStream (language analysis code : String) : String :=
  "Write complete professional documentation using this analysis:\n\n--- ANALYSIS ---\n"
    ++ analysis
    ++ "\n\n--- ORIGINAL " ++ language.toUpper ++ " CODE (for reference) ---\n"
    ++ code

/-- Stage-3 prompt of `stream_pipeline` (agents.py lines 342-348). -/
def reviewerPromptStream (language draft_docs code : String) : String :=
  "Review and polish this documentation against the original code.\n\n--- DOCUMENTATION TO REVIEW ---\n"
    ++ draft_docs
    ++ "\n\n--- ORIGINAL " ++ language.toUpper ++ " CODE ---\n"
    ++ code

/-- Progress message yielded before stage 1 (agents.py line 313). -/
def step1Msg : String := "⏳ Step 1 of 3 — Code Analyst is reading your code..."

/-- Progress message yielded before stage 2 (agents.py line 322). -/
def step2Msg : String := "⏳ Step 2 of 3 — Documentation Writer is drafting the docs..."

/-- Progress message yielded before stage 3 (agents.py line 337). -/
def step3Msg : String := "⏳ Step 3 of 3 — Quality Reviewer is checking and polishing..."

/-- Result of one `run_pipeline` execution: the returned value (or the
propagated failure) together with the ordered list of oracle calls issued. -/
structure PipeRun (ε : Type) where
  result : Except ε String
  calls : List (AgentT × String)
deriving Repr

/-- Result of one `stream_pipeline` execution: the values yielded before the
run ended, the ordered oracle calls issued, and `some e` when the run ended by
a propagated failure instead of normal completion. -/
structure StreamRun (ε : Type) where
  yields : List String
  calls : List (AgentT × String)
  err : Option ε
deriving Repr

/-- Shallow embedding of `run_pipeline` (agents.py lines 210-273).  The guard
checks the stripped code; then the three stages run strictly in sequence, each
prompt built from the previous stage's full output, and a failing call
propagates immediately (no later stage runs). -/
def run_pipeline (llm : AgentT → String → Except ε String)
    (code language : String) : PipeRun ε :=
  if pyStrip code = "" then
    { result := .ok emptyWarningRun, calls := [] }
  else
    let p1 := analystPromptRun language code
    match llm .code_analyst p1 with
    | .error e => { result := .error e, calls := [(.code_analyst, p1)] }
    | .ok analysis =>
      let p2 := writerPromptRun language analysis code
      match llm .doc_writer p2 with
      | .error e =>
        { result := .error e
          calls := [(.code_analyst, p1), (.doc_writer, p2)] }
      | .ok draft_docs =>
        let p3 := reviewerPromptRun language draft_docs code
        match llm .quality_reviewer p3 with
        | .error e =>
          { result := .error e
            calls := [(.code_analyst, p1), (.doc_writer, p2), (.quality_reviewer, p3)] }
        | .ok final =>
          { result := .ok final
            calls := [(.code_analyst, p1), (.doc_writer, p2), (.quality_reviewer, p3)] }

/-- Shallow embedding of `stream_pipeline` (agents.py lines 288-353).  Each
progress message is yielded before its stage's oracle call; a failing call
ends the run with the values yielded so far and the failure recorded. -/
def stream_pipeline (llm : AgentT → String → Except ε String)
    (code language : String) : StreamRun ε :=
  if pyStrip code = "" then
    { yields := [emptyWarningStream], calls := [], err := none }
  else
    let p1 := analystPromptStream language code
    match llm .code_analyst p1 with
    | .error e =>
      { yields := [step1Msg], calls := [(.code_analyst, p1)], err := some e }
    | .ok analysis =>
      let p2 := writerPromptStream language analysis code
      match llm .doc_writer p2 with
      | .error e =>
        { yields := [step1Msg, step2Msg]
          calls := [(.code_analyst, p1), (.doc_writer, p2)]
          err := some e }
      | .ok draft_docs =>
        let p3 := reviewerPromptStream language draft_docs code
        match llm .quality_reviewer p3 with
        | .error e =>
          { yields := [step1Msg, step2Msg, step3Msg]
            calls := [(.code_analyst, p1), (.doc_writer, p2), (.quality_reviewer, p3)]
            err := some e }
        | .ok final =>
          { yields := [step1Msg, step2Msg, step3Msg, final]
            calls := [(.code_analyst, p1), (.doc_writer, p2), (.quality_reviewer, p3)]
            err := none }

/-- An oracle all of whose calls succeed, built from a deterministic total
model `llm` of the inference call. -/
def pureOracle (ε : Type) (llm : AgentT → String → String) :
    AgentT → String → Except ε String :=
  fun a p => .ok (llm a p)

/-- Timestamp components as produced by `datetime.now()` in app.py.  Python
`datetime` years lie strictly below 10000, so four digits always suffice for
the year field. -/
structure Timestamp where
  year : Nat
  month : Nat
  day : Nat
  hour : Nat
  minute : Nat
  second : Nat
deriving Repr, DecidableEq

/-- Zero-padded two-digit decimal rendering, as `strftime` does for
`%m %d %H %M %S`. -/
def pad2 (n : Nat) : String :=
  ⟨[Nat.digitChar (n / 10 % 10), Nat.digitChar (n % 10)]⟩

/-- Zero-padded four-digit decimal rendering, as `strftime` does for `%Y` on
the `datetime` year range. -/
def pad4 (n : Nat) : String :=
  ⟨[Nat.digitChar (n / 1000 % 10), Nat.digitChar (n / 100 % 10),
    Nat.digitChar (n / 10 % 10), Nat.digitChar (n % 10)]⟩

/-- Embedding of `datetime.now().strftime("%Y%m%d_%H%M%S")` (app.py line 27). -/
def strftimeStamp (ts : Timestamp) : String :=
  pad4 ts.year ++ pad2 ts.month ++ pad2 ts.day ++ "_"
    ++ pad2 ts.hour ++ pad2 ts.minute ++ pad2 ts.second

/-- Filesystem model: the set of existing directories and the files with
their contents.  Writing prepends to `files`. -/
structure FS where
  dirs : List String
  files : List (String × String)
deriving Repr, DecidableEq

/-- Shallow embedding of `save_documentation` (app.py lines 23-31):
`temp_dir.mkdir(exist_ok=True)` creates the output directory on demand, the
filename embeds the timestamp, and the content is written verbatim.  Returns
the path (as `str(filepath)` does) together with the updated filesystem. -/
def save_documentation (ts : Timestamp) (content : String) (fs : FS) :
    String × FS :=
  let dirs := if "temp" ∈ fs.dirs then fs.dirs else "temp" :: fs.dirs
  let filepath := "temp/documentation_" ++ strftimeStamp ts ++ ".md"
  (filepath, { dirs := dirs, files := (filepath, content) :: fs.files })

/-- Warning yielded by `generate` when no code is provided (app.py line 50). -/
def uiWarning : String := "⚠️ Please paste code or upload a file first."

/-- Code selection at the top of `generate` (app.py lines 42-46): an uploaded
file is read through `readF`; otherwise the pasted text is used. -/
def codeOf (readF : String → String) (code_input : String)
    (file_input : Option String) : String :=
  match file_input with
  | some f => readF f
  | none => code_input

/-- Result of one `generate` execution: the `(output_text, download_path)`
pairs yielded, `some e` when a pipeline failure propagated out of the
`async for` loop, and the final filesystem. -/
structure GenRun (ε : Type) where
  yields : List (String × Option String)
  err : Option ε
  fs : FS
deriving Repr

/-- Shallow embedding of `generate` (app.py lines 36-62).  The handler resolves
the code (file upload wins over pasted text), guards on empty code, relays
every pipeline chunk with an absent download path, tracks `final_output` as
the last chunk seen, and on normal completion saves and yields the download
path only when `final_output.strip()` is non-empty.  A pipeline failure
propagates and nothing is saved. -/
def generate (llm : AgentT → String → Except ε String)
    (readF : String → String) (ts : Timestamp) (fs : FS)
    (code_input : String) (file_input : Option String) (language : String) :
    GenRun ε :=
  let code := codeOf readF code_input file_input
  if pyStrip code = "" then
    { yields := [(uiWarning, none)], err := none, fs := fs }
  else
    let s := stream_pipeline llm code language
    let chunkYields := s.yields.map (fun c => (c, (none : Option String)))
    match s.err with
    | some e => { yields := chunkYields, err := some e, fs := fs }
    | none =>
      let final_output := s.yields.getLast?.getD ""
      if pyStrip final_output = "" then
        { yields := chunkYields, err := none, fs := fs }
      else
        let saved := save_documentation ts final_output fs
        { yields := chunkYields ++ [(final_output, some saved.1)]
          err := none
          fs := saved.2 }

/-- Configuration the SDK ends up with after Section 1 of agents.py
(lines 34-38): the key under which the credential is stored, the base URL, and
the model identifier. -/
structure SdkConfig where
  openai_api_key : Option String
  openai_base_url : String
  model : String
deriving Repr, DecidableEq

/-- Shallow embedding of the configuration block of agents.py (lines 34-38),
as a function of the process environment (after `load_dotenv`):
`os.environ["OPENAI_API_KEY"] = os.getenv("OPENROUTER_API_KEY")`,
`os.environ["OPENAI_BASE_URL"] = "https://openrouter.ai/api/v1"`, and
`MODEL = os.getenv("MODEL", "openai/gpt-4o-mini")`. -/
def configure_sdk (getenv : String → Option String) : SdkConfig :=
  { openai_api_key := getenv "OPENROUTER_API_KEY"
    openai_base_url := "https://openrouter.ai/api/v1"
    model := (getenv "MODEL").getD "openai/gpt-4o-mini" }

/-! Helper lemmas. -/

theorem strAppend_assoc (a b c : String) : a ++ b ++ c = a ++ (b ++ c) := by
  apply String.ext
  simp [String.data_append, List.append_assoc]

theorem digitChar_mod_isDigit (n : Nat) : (Nat.digitChar (n % 10)).isDigit = true := by
  have hall : ∀ m, m < 10 → (Nat.digitChar m).isDigit = true := by decide
  exact hall _ (Nat.mod_lt _ (by norm_num))

theorem pad2_length (n : Nat) : (pad2 n).length = 2 := rfl

theorem pad4_length (n : Nat) : (pad4 n).length = 4 := rfl

theorem pad2_digits (n : Nat) : ∀ c ∈ (pad2 n).data, c.isDigit = true := by
  intro c hc
  simp only [pad2, List.mem_cons, List.not_mem_nil, or_false] at hc
  rcases hc with h | h
  · subst h
    exact digitChar_mod_isDigit _
  · subst h
    exact digitChar_mod_isDigit _

theorem pad4_digits (n : Nat) : ∀ c ∈ (pad4 n).data, c.isDigit = true := by
  intro c hc
  simp only [pad4, List.mem_cons, List.not_mem_nil, or_false] at hc
  rcases hc with h | h | h | h <;>
    (subst h; exact digitChar_mod_isDigit _)

/-! Claim theorems. -/

/-- C1: for every input whose code is non-empty after stripping whitespace,
`run_pipeline` and likewise `stream_pipeline` perform exactly three oracle
calls, strictly in order Analyzer, Writer, Reviewer, and the second call's
prompt contains the first call's full output while the third call's prompt
contains the second call's full output. -/
theorem C1_three_calls_in_order (ε : Type) (llm : AgentT → String → String)
    (code language : String) (h : pyStrip code ≠ "") :
    (∃ p1 p2 p3,
      (run_pipeline (pureOracle ε llm) code language).calls =
        [(AgentT.code_analyst, p1), (AgentT.doc_writer, p2), (AgentT.quality_reviewer, p3)] ∧
      (∃ a b, p2 = a ++ (llm AgentT.code_analyst p1 ++ b)) ∧
      (∃ a b, p3 = a ++ (llm AgentT.doc_writer p2 ++ b))) ∧
    (∃ p1 p2 p3,
      (stream_pipeline (pureOracle ε llm) code language).calls =
        [(AgentT.code_analyst, p1), (AgentT.doc_writer, p2), (AgentT.quality_reviewer, p3)] ∧
      (∃ a b, p2 = a ++ (llm AgentT.code_analyst p1 ++ b)) ∧
      (∃ a b, p3 = a ++ (llm AgentT.doc_writer p2 ++ b))) := by
  constructor
  · refine ⟨analystPromptRun language code,
      writerPromptRun language
        (llm .code_analyst (analystPromptRun language code)) code,
      reviewerPromptRun language
        (llm .doc_writer (writerPromptRun language
          (llm .code_analyst (analystPromptRun language code)) code)) code,
      ?_, ?_, ?_⟩
    · simp [run_pipeline, pureOracle, h]
    · exact ⟨"Write complete professional documentation using this analysis:\n\n--- ANALYSIS ---\n",
        "\n\n--- ORIGINAL " ++ language.toUpper ++ " CODE (for reference) ---\n" ++ code,
        by simp [writerPromptRun, strAppend_assoc]⟩
    · exact ⟨"Review and polish this documentation against the original code.\n\n--- DOCUMENTATION TO REVIEW ---\n",
        "\n\n--- ORIGINAL " ++ language.toUpper ++ " CODE ---\n" ++ code,
        by simp [reviewerPromptRun, strAppend_assoc]⟩
  · refine ⟨analystPromptStream language code,
      writerPromptStream language
        (llm .code_analyst (analystPromptStream language code)) code,
      reviewerPromptStream language
        (llm .doc_writer (writerPromptStream language
          (llm .code_analyst (analystPromptStream language code)) code)) code,
      ?_, ?_, ?_⟩
    · simp [stream_pipeline, pureOracle, h]
    · exact ⟨"Write complete professional documentation using this analysis:\n\n--- ANALYSIS ---\n",
        "\n\n--- ORIGINAL " ++ language.toUpper ++ " CODE (for reference) ---\n" ++ code,
        by simp [writerPromptStream, strAppend_assoc]⟩
    · exact ⟨"Review and polish this documentation against the original code.\n\n--- DOCUMENTATION TO REVIEW ---\n",
        "\n\n--- ORIGINAL " ++ language.toUpper ++ " CODE ---\n" ++ code,
        by simp [reviewerPromptStream, strAppend_assoc]⟩

/-- C2: for every non-empty (after stripping) input on which all three oracle
calls succeed, `stream_pipeline` yields exactly 4 values: the three fixed
progress strings in fixed order, then exactly one final value equal to the
Reviewer stage's output; only the last yielded value is the final document. -/
theorem C2_stream_four_yields (ε : Type) (llm : AgentT → String → String)
    (code language : String) (h : pyStrip code ≠ "") :
    (stream_pipeline (pureOracle ε llm) code language).err = none ∧
    ∃ p3,
      (stream_pipeline (pureOracle ε llm) code language).calls.getLast? =
        some (AgentT.quality_reviewer, p3) ∧
      (stream_pipeline (pureOracle ε llm) code language).yields =
        [step1Msg, step2Msg, step3Msg, llm AgentT.quality_reviewer p3] := by
  refine ⟨?_,
    reviewerPromptStream language
      (llm .doc_writer (writerPromptStream language
        (llm .code_analyst (analystPromptStream language code)) code)) code,
    ?_, ?_⟩ <;>
  simp [stream_pipeline, pureOracle, h]

/-- C3: for every input whose code is empty after stripping whitespace
(including whitespace-only strings), `run_pipeline` returns, and
`stream_pipeline` yields as its only value, exactly the fixed warning string,
and zero oracle calls are made — for an arbitrary oracle. -/
theorem C3_empty_input_short_circuit (ε : Type)
    (llm : AgentT → String → Except ε String) (code language : String)
    (h : pyStrip code = "") :
    run_pipeline llm code language =
      { result := .ok emptyWarningRun, calls := [] } ∧
    stream_pipeline llm code language =
      { yields := [emptyWarningStream], calls := [], err := none } := by
  constructor <;> simp [run_pipeline, stream_pipeline, h]

/-- Witness for C1 at a concrete input. -/
theorem C1_three_calls_in_order_witness :
    (run_pipeline (pureOracle Unit (fun _ _ => "OUT")) "x" "Python").calls.map Prod.fst =
      [AgentT.code_analyst, AgentT.doc_writer, AgentT.quality_reviewer] ∧
    (stream_pipeline (pureOracle Unit (fun _ _ => "OUT")) "x" "Python").calls.map Prod.fst =
      [AgentT.code_analyst, AgentT.doc_writer, AgentT.quality_reviewer] := by
  obtain ⟨⟨p1, p2, p3, hr, -, -⟩, ⟨q1, q2, q3, hs, -, -⟩⟩ :=
    C1_three_calls_in_order Unit (fun _ _ => "OUT") "x" "Python" (by decide)
  rw [hr, hs]
  exact ⟨rfl, rfl⟩

/-- Witness for C2 at a concrete input. -/
theorem C2_stream_four_yields_witness :
    (stream_pipeline (pureOracle Unit (fun _ _ => "OUT")) "x" "Python").err = none ∧
    (stream_pipeline (pureOracle Unit (fun _ _ => "OUT")) "x" "Python").yields.length = 4 := by
  obtain ⟨he, p3, -, hy⟩ :=
    C2_stream_four_yields Unit (fun _ _ => "OUT") "x" "Python" (by decide)
  rw [hy] at *
  exact ⟨he, rfl⟩

/-- Witness for C3 at a concrete whitespace-only input with an oracle that
would fail if it were ever consulted. -/
theorem C3_empty_input_short_circuit_witness :
    run_pipeline (fun _ _ => (Except.error () : Except Unit String)) "   " "Python" =
      { result := .ok emptyWarningRun, calls := [] } ∧
    stream_pipeline (fun _ _ => (Except.error () : Except Unit String)) "   " "Python" =
      { yields := [emptyWarningStream], calls := [], err := none } :=
  C3_empty_input_short_circuit Unit (fun _ _ => Except.error ()) "   " "Python" (by decide)

/-- C4: a failing inference call propagates uncaught out of the driver with
the same error, no later stage is invoked (the call list stops at the failing
agent), and when a pipeline failure propagates out of `generate` the
filesystem is unchanged, so no result file is persisted. -/
theorem C4_failure_propagates (ε : Type) (llm : AgentT → String → Except ε String)
    (code language : String) (h : pyStrip code ≠ "") :
    (∀ e, llm .code_analyst (analystPromptRun language code) = .error e →
      (run_pipeline llm code language).result = .error e ∧
      (run_pipeline llm code language).calls.map Prod.fst = [AgentT.code_analyst]) ∧
    (∀ e analysis,
      llm .code_analyst (analystPromptRun language code) = .ok analysis →
      llm .doc_writer (writerPromptRun language analysis code) = .error e →
      (run_pipeline llm code language).result = .error e ∧
      (run_pipeline llm code language).calls.map Prod.fst =
        [AgentT.code_analyst, AgentT.doc_writer]) ∧
    (∀ e analysis draft_docs,
      llm .code_analyst (analystPromptRun language code) = .ok analysis →
      llm .doc_writer (writerPromptRun language analysis code) = .ok draft_docs →
      llm .quality_reviewer (reviewerPromptRun language draft_docs code) = .error e →
      (run_pipeline llm code language).result = .error e ∧
      (run_pipeline llm code language).calls.map Prod.fst =
        [AgentT.code_analyst, AgentT.doc_writer, AgentT.quality_reviewer]) ∧
    (∀ (readF : String → String) (ts : Timestamp) (fs : FS) (ci : String)
        (fi : Option String) (lang2 : String) (e : ε),
      (generate llm readF ts fs ci fi lang2).err = some e →
      (generate llm readF ts fs ci fi lang2).fs = fs ∧
      ∀ y ∈ (generate llm readF ts fs ci fi lang2).yields, y.2 = none) := by
  refine ⟨?_, ?_, ?_, ?_⟩
  · intro e he
    constructor <;> simp [run_pipeline, h, he]
  · intro e analysis h1 h2
    constructor <;> simp [run_pipeline, h, h1, h2]
  · intro e analysis draft_docs h1 h2 h3
    constructor <;> simp [run_pipeline, h, h1, h2, h3]
  · intro readF ts fs ci fi lang2 e he
    by_cases hstrip : pyStrip (codeOf readF ci fi) = ""
    · simp [generate, hstrip] at he
    · cases hserr : (stream_pipeline llm (codeOf readF ci fi) lang2).err with
      | some e2 =>
        constructor
        · simp [generate, hstrip, hserr]
        · intro y hy
          simp only [generate, hstrip, if_neg hstrip, hserr] at hy
          obtain ⟨c, -, rfl⟩ := List.mem_map.mp hy
          rfl
      | none =>
        exfalso
        by_cases hfin :
            pyStrip ((stream_pipeline llm (codeOf readF ci fi) lang2).yields.getLast?.getD "") = "" <;>
          simp [generate, hstrip, hserr, hfin] at he

/-- Witness for C4: an oracle that always fails, applied through both
`run_pipeline` and `generate`. -/
theorem C4_failure_propagates_witness :
    (run_pipeline (fun _ _ => (Except.error () : Except Unit String)) "x" "Python").result =
      Except.error () ∧
    (generate (fun _ _ => (Except.error () : Except Unit String)) (fun _ => "")
        ⟨2025, 1, 2, 3, 4, 5⟩ ⟨[], []⟩ "x" none "Python").fs = ⟨[], []⟩ := by
  obtain ⟨h1, -, -, h4⟩ :=
    C4_failure_propagates Unit (fun _ _ => Except.error ()) "x" "Python" (by decide)
  refine ⟨(h1 () rfl).1, ?_⟩
  exact (h4 (fun _ => "") ⟨2025, 1, 2, 3, 4, 5⟩ ⟨[], []⟩ "x" none "Python" () (by decide)).1

/-- C7: the submitted source input is immutable throughout a run: for every
non-empty input, the code text embedded in the Writer prompt and in the
Reviewer prompt (in both pipeline variants) is the very code string the driver
received, appearing verbatim as a suffix of each prompt. -/
theorem C7_source_code_immutable (ε : Type) (llm : AgentT → String → String)
    (code language : String) (h : pyStrip code ≠ "") :
    (∃ p1 p2 p3,
      (run_pipeline (pureOracle ε llm) code language).calls =
        [(AgentT.code_analyst, p1), (AgentT.doc_writer, p2), (AgentT.quality_reviewer, p3)] ∧
      (∃ a, p2 = a ++ code) ∧ (∃ b, p3 = b ++ code)) ∧
    (∃ p1 p2 p3,
      (stream_pipeline (pureOracle ε llm) code language).calls =
        [(AgentT.code_analyst, p1), (AgentT.doc_writer, p2), (AgentT.quality_reviewer, p3)] ∧
      (∃ a, p2 = a ++ code) ∧ (∃ b, p3 = b ++ code)) := by
  constructor
  · refine ⟨analystPromptRun language code,
      writerPromptRun language
        (llm .code_analyst (analystPromptRun language code)) code,
      reviewerPromptRun language
        (llm .doc_writer (writerPromptRun language
          (llm .code_analyst (analystPromptRun language code)) code)) code,
      ?_, ⟨_, rfl⟩, ⟨_, rfl⟩⟩
    simp [run_pipeline, pureOracle, h]
  · refine ⟨analystPromptStream language code,
      writerPromptStream language
        (llm .code_analyst (analystPromptStream language code)) code,
      reviewerPromptStream language
        (llm .doc_writer (writerPromptStream language
          (llm .code_analyst (analystPromptStream language code)) code)) code,
      ?_, ⟨_, rfl⟩, ⟨_, rfl⟩⟩
    simp [stream_pipeline, pureOracle, h]

/-- Witness for C7 at a concrete input. -/
theorem C7_source_code_immutable_witness :
    ∃ p1 p2 p3,
      (run_pipeline (pureOracle Unit (fun _ _ => "OUT")) "x" "Python").calls =
        [(AgentT.code_analyst, p1), (AgentT.doc_writer, p2), (AgentT.quality_reviewer, p3)] ∧
      (∃ a, p2 = a ++ "x") ∧ (∃ b, p3 = b ++ "x") :=
  (C7_source_code_immutable Unit (fun _ _ => "OUT") "x" "Python" (by decide)).1

/-- C8: with the inference call modelled as a deterministic total function of
(agent, prompt), the two entry points build character-identical prompts at
each stage and identical warning strings, and `run_pipeline`'s return value
equals `stream_pipeline`'s last yielded value on every input. -/
theorem C8_run_stream_equivalent (ε : Type) (llm : AgentT → String → String)
    (code language analysis draft_docs : String) :
    analystPromptRun language code = analystPromptStream language code ∧
    writerPromptRun language analysis code = writerPromptStream language analysis code ∧
    reviewerPromptRun language draft_docs code = reviewerPromptStream language draft_docs code ∧
    emptyWarningRun = emptyWarningStream ∧
    ∃ r, (run_pipeline (pureOracle ε llm) code language).result = .ok r ∧
      (stream_pipeline (pureOracle ε llm) code language).yields.getLast? = some r := by
  refine ⟨rfl, rfl, rfl, rfl, ?_⟩
  by_cases h : pyStrip code = ""
  · refine ⟨emptyWarningRun, ?_, ?_⟩ <;>
      simp [run_pipeline, stream_pipeline, h, emptyWarningRun, emptyWarningStream]
  · refine ⟨llm .quality_reviewer (reviewerPromptRun language
      (llm .doc_writer (writerPromptRun language
        (llm .code_analyst (analystPromptRun language code)) code)) code), ?_, ?_⟩ <;>
    simp [run_pipeline, stream_pipeline, pureOracle, h,
      analystPromptRun, analystPromptStream, writerPromptRun, writerPromptStream,
      reviewerPromptRun, reviewerPromptStream]

/-- C5: on successful completion of a pipeline run (non-empty stripped final
output, as the spec assumes of every stage output absent failure), the final
document string is written verbatim to a file named
`documentation_<YYYYMMDD_HHMMSS>.md` (eight digits, underscore, six digits)
inside the dedicated `temp` output directory, which exists afterwards. -/
theorem C5_timestamped_file (ε : Type) (llm : AgentT → String → Except ε String)
    (readF : String → String) (ts : Timestamp) (fs : FS)
    (ci : String) (fi : Option String) (language : String)
    (h : pyStrip (codeOf readF ci fi) ≠ "")
    (hok : (stream_pipeline llm (codeOf readF ci fi) language).err = none)
    (hne : pyStrip ((stream_pipeline llm (codeOf readF ci fi) language).yields.getLast?.getD "")
      ≠ "") :
    ∃ d t,
      d.length = 8 ∧ t.length = 6 ∧
      (∀ c ∈ d.data, c.isDigit = true) ∧ (∀ c ∈ t.data, c.isDigit = true) ∧
      "temp" ∈ (generate llm readF ts fs ci fi language).fs.dirs ∧
      ("temp/documentation_" ++ d ++ "_" ++ t ++ ".md",
          (stream_pipeline llm (codeOf readF ci fi) language).yields.getLast?.getD "") ∈
        (generate llm readF ts fs ci fi language).fs.files ∧
      (generate llm readF ts fs ci fi language).yields.getLast? =
        some ((stream_pipeline llm (codeOf readF ci fi) language).yields.getLast?.getD "",
          some ("temp/documentation_" ++ d ++ "_" ++ t ++ ".md")) := by
  have hpath : "temp/documentation_" ++ strftimeStamp ts ++ ".md" =
      "temp/documentation_" ++ (pad4 ts.year ++ pad2 ts.month ++ pad2 ts.day) ++ "_"
        ++ (pad2 ts.hour ++ pad2 ts.minute ++ pad2 ts.second) ++ ".md" := by
    simp [strftimeStamp, strAppend_assoc]
  refine ⟨pad4 ts.year ++ pad2 ts.month ++ pad2 ts.day,
    pad2 ts.hour ++ pad2 ts.minute ++ pad2 ts.second, ?_, ?_, ?_, ?_, ?_, ?_, ?_⟩
  · simp [String.length_append, pad4_length, pad2_length]
  · simp [String.length_append, pad2_length]
  · intro c hc
    simp only [String.data_append, List.mem_append] at hc
    rcases hc with (hc | hc) | hc
    · exact pad4_digits _ _ hc
    · exact pad2_digits _ _ hc
    · exact pad2_digits _ _ hc
  · intro c hc
    simp only [String.data_append, List.mem_append] at hc
    rcases hc with (hc | hc) | hc <;> exact pad2_digits _ _ hc
  · by_cases hd : "temp" ∈ fs.dirs <;>
      simp [generate, save_documentation, h, hok, hne, hd]
  · rw [← hpath]
    simp [generate, save_documentation, h, hok, hne]
  · rw [← hpath]
    simp [generate, save_documentation, h, hok, hne]

/-- Witness for C5 at a concrete input, oracle and timestamp. -/
theorem C5_timestamped_file_witness :
    ∃ d t,
      d.length = 8 ∧ t.length = 6 ∧
      (∀ c ∈ d.data, c.isDigit = true) ∧ (∀ c ∈ t.data, c.isDigit = true) ∧
      "temp" ∈ (generate (pureOracle Unit (fun _ _ => "DOC")) (fun _ => "")
        ⟨2025, 1, 2, 3, 4, 5⟩ ⟨[], []⟩ "x" none "Python").fs.dirs ∧
      ("temp/documentation_" ++ d ++ "_" ++ t ++ ".md",
          (stream_pipeline (pureOracle Unit (fun _ _ => "DOC"))
            (codeOf (fun _ => "") "x" none) "Python").yields.getLast?.getD "") ∈
        (generate (pureOracle Unit (fun _ _ => "DOC")) (fun _ => "")
          ⟨2025, 1, 2, 3, 4, 5⟩ ⟨[], []⟩ "x" none "Python").fs.files ∧
      (generate (pureOracle Unit (fun _ _ => "DOC")) (fun _ => "")
          ⟨2025, 1, 2, 3, 4, 5⟩ ⟨[], []⟩ "x" none "Python").yields.getLast? =
        some ((stream_pipeline (pureOracle Unit (fun _ _ => "DOC"))
            (codeOf (fun _ => "") "x" none) "Python").yields.getLast?.getD "",
          some ("temp/documentation_" ++ d ++ "_" ++ t ++ ".md")) :=
  C5_timestamped_file Unit (pureOracle Unit (fun _ _ => "DOC")) (fun _ => "")
    ⟨2025, 1, 2, 3, 4, 5⟩ ⟨[], []⟩ "x" none "Python"
    (by decide) (by decide) (by decide)

/-- C9: in `generate`, given that the streaming pipeline completed without
failure, a download file is written and its path yielded exactly when the
pipeline's last value is non-empty after stripping; a whitespace-only final
output leaves the filesystem unchanged and every yielded download handle
absent. -/
theorem C9_download_iff_nonempty (ε : Type) (llm : AgentT → String → Except ε String)
    (readF : String → String) (ts : Timestamp) (fs : FS)
    (ci : String) (fi : Option String) (language : String)
    (h : pyStrip (codeOf readF ci fi) ≠ "")
    (hok : (stream_pipeline llm (codeOf readF ci fi) language).err = none) :
    (pyStrip ((stream_pipeline llm (codeOf readF ci fi) language).yields.getLast?.getD "") = "" →
      (generate llm readF ts fs ci fi language).fs = fs ∧
      ∀ y ∈ (generate llm readF ts fs ci fi language).yields, y.2 = none) ∧
    (pyStrip ((stream_pipeline llm (codeOf readF ci fi) language).yields.getLast?.getD "") ≠ "" →
      ∃ p,
        (generate llm readF ts fs ci fi language).yields.getLast? =
          some ((stream_pipeline llm (codeOf readF ci fi) language).yields.getLast?.getD "",
            some p) ∧
        (p, (stream_pipeline llm (codeOf readF ci fi) language).yields.getLast?.getD "") ∈
          (generate llm readF ts fs ci fi language).fs.files) := by
  constructor
  · intro hfin
    constructor
    · simp [generate, h, hok, hfin]
    · intro y hy
      simp only [generate, if_neg h, hok, hfin, if_pos, List.mem_map] at hy
      obtain ⟨c, -, rfl⟩ := hy
      rfl
  · intro hfin
    refine ⟨"temp/documentation_" ++ strftimeStamp ts ++ ".md", ?_, ?_⟩ <;>
      simp [generate, save_documentation, h, hok, hfin]

/-- Witness for C9 with an oracle whose reviewer output is whitespace-only:
nothing is persisted. -/
theorem C9_download_iff_nonempty_witness :
    (generate (pureOracle Unit (fun _ _ => " ")) (fun _ => "")
      ⟨2025, 1, 2, 3, 4, 5⟩ ⟨[], []⟩ "x" none "Python").fs = ⟨[], []⟩ :=
  ((C9_download_iff_nonempty Unit (pureOracle Unit (fun _ _ => " ")) (fun _ => "")
    ⟨2025, 1, 2, 3, 4, 5⟩ ⟨[], []⟩ "x" none "Python"
    (by decide) (by decide)).1 (by decide)).1

/-- C10: in `generate`, an uploaded file takes strict precedence over pasted
code: with a file present the run is exactly the run on the file's contents,
and the pasted text is ignored entirely; the pasted text is used only when no
file is provided. -/
theorem C10_file_precedence (ε : Type) (llm : AgentT → String → Except ε String)
    (readF : String → String) (ts : Timestamp) (fs : FS)
    (ci ci2 f language : String) :
    generate llm readF ts fs ci (some f) language =
      generate llm readF ts fs (readF f) none language ∧
    generate llm readF ts fs ci (some f) language =
      generate llm readF ts fs ci2 (some f) language :=
  ⟨rfl, rfl⟩

/-- C6 counterexample: the base endpoint URL is not configured from an
environment-provided value — even when every environment variable is set to
`http://example.test`, the configured base URL is the hard-coded constant. -/
theorem C6_base_url_counterexample :
    (configure_sdk (fun _ => some "http://example.test")).openai_base_url ≠
      "http://example.test" := by
  decide

/-- C6 amended: the credential is the environment's `OPENROUTER_API_KEY`
value; the base endpoint URL is the fixed constant
`https://openrouter.ai/api/v1` independent of the environment; the model
identifier is the environment's `MODEL` value with the fixed fallback
`openai/gpt-4o-mini` when unset. -/
theorem C6_config_sources (getenv : String → Option String) :
    (configure_sdk getenv).openai_api_key = getenv "OPENROUTER_API_KEY" ∧
    (configure_sdk getenv).openai_base_url = "https://openrouter.ai/api/v1" ∧
    (∀ m, getenv "MODEL" = some m → (configure_sdk getenv).model = m) ∧
    (getenv "MODEL" = none → (configure_sdk getenv).model = "openai/gpt-4o-mini") := by
  refine ⟨rfl, rfl, ?_, ?_⟩
  · intro m hm
    simp [configure_sdk, hm]
  · intro hm
    simp [configure_sdk, hm]

/-- Witness for the amended C6 at a concrete environment. -/
theorem C6_config_sources_witness :
    (configure_sdk (fun k => if k = "MODEL" then some "m1" else some "k1")).model = "m1" :=
  (C6_config_sources (fun k => if k = "MODEL" then some "m1" else some "k1")).2.2.1
    "m1" (by decide)

